import Mathlib

/-
Verification of the deferred/streaming response pipeline of http-simple
(pkg/service: respond.go, request handling, session, service lifecycle).

The embedding models:
  * the transport writer (`http.ResponseWriter.Write`) as a state
    `WriterState`: a log of successfully written chunks plus a behaviour
    function saying which chunks the transport rejects.  The transport's
    write errors are its own (tagged by a `Nat`); in particular the
    transport never returns the stream library's `ErrContextDone`
    sentinel, which belongs to the collections-go package, so a write
    error is never `Err.contextDone`.
  * the cancellation-aware channel iterator
    (`stream.FromChanWithContext(ch, ctx)` with `.Each`, an external
    dependency used by `BinaryStreamData`) at its interface contract: one
    run of the iterator is a finite list of `Event`s — chunks received in
    order, or the context's cancellation firing — and `Each` processes
    chunks in order until the list ends (normal channel closure), the
    cancellation event is reached (`Each` returns `ErrContextDone`), or
    the callback fails (`Each` returns the callback's error).
  * `ResponseDataFunc` as `Producer`: a function from writer state to
    writer state and a `(bytes, error|none)` result.
  * resource actions (`Write` calls, `Close` on the wrapped stream) as an
    explicit action log, to settle when the deferred `s.Close()` in
    `BinaryStreamData` actually runs.
-/

namespace HttpSimple

/-- A byte chunk (Go `[]byte`); byte values modelled as `Nat`. -/
abbrev Chunk := List Nat

/-- Errors observable in the pipeline.  `contextDone` is the
collections-go sentinel `contracts.ErrContextDone`; `writeFailed t` is a
transport write error with tag `t`; `producerFailed t` an arbitrary
producer error with tag `t`.  `errors.Is(err, contracts.ErrContextDone)`
is modelled as equality with `contextDone`. -/
inductive Err where
  | contextDone : Err
  | writeFailed : Nat → Err
  | producerFailed : Nat → Err
deriving DecidableEq, Repr

/-- State of the response writer: which chunks the transport rejects
(`writeErr c = some t` means writing `c` fails with tag `t`) and the log
of successfully written chunks, in order. -/
structure WriterState where
  writeErr : Chunk → Option Nat
  written : List Chunk

/-- One `Write` call on the transport: on success the chunk is appended
to the written log; on failure nothing is appended and the error tag is
returned. -/
def WriterState.write (w : WriterState) (c : Chunk) : WriterState × Option Nat :=
  match w.writeErr c with
  | none => ({ w with written := w.written ++ [c] }, none)
  | some t => (w, some t)

/-- One event observed by the cancellation-aware channel iterator: a
chunk received from the channel, or the context's cancellation signal
firing.  A run of the iterator is a finite `List Event`; normal channel
closure is the end of the list. -/
inductive Event where
  | chunk : Chunk → Event
  | cancel : Event
deriving DecidableEq, Repr

/-- Resource actions performed against the transport writer and the
wrapped stream: a `Write` call with a chunk, or `Close` on the stream. -/
inductive SAct where
  | writeCall : Chunk → SAct
  | closeCall : SAct
deriving DecidableEq, Repr

/-- `s.Each(callback)` of the wrapped stream, with the callback of
`BinaryStreamData` inlined (write each chunk to the response writer,
abort on write error).  Returns the final writer state, the error `Each`
reports (`none` on normal closure, `contextDone` on cancellation, the
write error if the callback failed), and the log of actions performed
during the run. -/
def streamEach : List Event → WriterState → WriterState × Option Err × List SAct
  | [], w => (w, none, [])
  | Event.cancel :: _, w => (w, some Err.contextDone, [])
  | Event.chunk c :: rest, w =>
    match WriterState.write w c with
    | (w', none) =>
      ((streamEach rest w').1, (streamEach rest w').2.1,
        SAct.writeCall c :: (streamEach rest w').2.2)
    | (w', some t) => (w', some (Err.writeFailed t), [SAct.writeCall c])

/-- A `ResponseDataFunc`: deferred computation from writer state to
writer state and `([]byte, error)`. -/
abbrev Producer := WriterState → WriterState × (Chunk × Option Err)

/-- The producer closure returned by `BinaryStreamData` (respond.go):
run `s.Each` writing every chunk to the writer; if the resulting error
`errors.Is` `ErrContextDone`, suppress it and return `(endOfStream, nil)`
where `endOfStream` is the nil slice; otherwise return
`(endOfStream, err)`. -/
def BinaryStreamData (events : List Event) : Producer := fun w =>
  let endOfStream : Chunk := []
  let r := streamEach events w
  if r.2.1 = some Err.contextDone then (r.1, (endOfStream, none))
  else (r.1, (endOfStream, r.2.1))

/-- Actions performed when the constructor `BinaryStreamData` itself
returns: the `defer func(){ s.Close() }()` in its body is attached to
`BinaryStreamData`, not to the returned closure, so `Close` on the
wrapped stream fires at constructor return, before the returned producer
can ever be invoked. -/
def binaryStreamDataReturnActions : List SAct := [SAct.closeCall]

/-- Actions performed during one invocation of the producer returned by
`BinaryStreamData`: the `Write` calls of the `Each` run.  No `Close`
occurs here — the deferred `Close` already ran at constructor return. -/
def binaryStreamDataEachActions (events : List Event) (w : WriterState) : List SAct :=
  (streamEach events w).2.2

/-- `BinaryData` (respond.go): producer returning the captured buffer and
no error, with no effect on the writer. -/
def BinaryData (data : Chunk) : Producer := fun w => (w, (data, none))

/-- `StringData` (respond.go): producer returning the byte encoding of
the captured string and no error. -/
def StringData (data : List Nat) : Producer := fun w => (w, (data, none))

/-- A writer whose transport accepts every chunk. -/
def okWriter : WriterState := { writeErr := fun _ => none, written := [] }

/-- A writer whose transport rejects every chunk with tag 9. -/
def badWriter : WriterState := { writeErr := fun _ => some 9, written := [] }

/-- A writer whose transport rejects exactly the chunk `[2]`, with
tag 5. -/
def failOn2Writer : WriterState :=
  { writeErr := fun c => if c = [2] then some 5 else none, written := [] }

/-- Helper: a run of `streamEach` over a block of chunks the transport
accepts appends exactly those chunks to the written log, logs exactly
their `Write` calls in order, and then continues with the rest of the
events. -/
theorem streamEach_ok_chunks (pre : List Chunk) (rest : List Event) (w : WriterState)
    (h : ∀ c ∈ pre, w.writeErr c = none) :
    streamEach (pre.map Event.chunk ++ rest) w =
      ((streamEach rest { w with written := w.written ++ pre }).1,
       (streamEach rest { w with written := w.written ++ pre }).2.1,
       pre.map SAct.writeCall ++ (streamEach rest { w with written := w.written ++ pre }).2.2) := by
  induction pre generalizing w with
  | nil =>
    simp only [List.map_nil, List.nil_append, List.append_nil]
  | cons c pre ih =>
    have hc : w.writeErr c = none := h c (List.mem_cons_self c pre)
    have h' : ∀ x ∈ pre, ({ w with written := w.written ++ [c] } : WriterState).writeErr x = none :=
      fun x hx => h x (List.mem_cons_of_mem c hx)
    simp only [List.map_cons, List.cons_append, streamEach, WriterState.write, hc,
      List.append_eq]
    rw [ih _ h']
    simp [List.append_assoc]

/-- `Response.Send` (respond.go), generic in the state threaded through
the producer and the writer: invoke the installed producer; on producer
error, return it without any further write; on success, write the
returned body (possibly empty) through the transport and return the
write outcome. -/
def sendG {σ : Type} (wr : σ → Chunk → σ × Option Nat)
    (p : σ → σ × (Chunk × Option Err)) (s : σ) : σ × Option Err :=
  match p s with
  | (s1, (_, some e)) => (s1, some e)
  | (s1, (body, none)) =>
    match wr s1 body with
    | (s2, none) => (s2, none)
    | (s2, some t) => (s2, some (Err.writeFailed t))

/-- `Response.Send` instantiated at the transport writer. -/
def Send (p : Producer) (w : WriterState) : WriterState × Option Err :=
  sendG WriterState.write p w

/-- Instrumentation: the writer lifted to a state carrying an invocation
counter; write calls leave the counter unchanged. -/
def countingWrite {σ : Type} (wr : σ → Chunk → σ × Option Nat) :
    σ × Nat → Chunk → (σ × Nat) × Option Nat :=
  fun sn c => (((wr sn.1 c).1, sn.2), (wr sn.1 c).2)

/-- Instrumentation: a producer lifted to a state carrying an invocation
counter; each invocation increments the counter by one. -/
def countingProducer {σ : Type} (p : σ → σ × (Chunk × Option Err)) :
    σ × Nat → (σ × Nat) × (Chunk × Option Err) :=
  fun sn => (((p sn.1).1, sn.2 + 1), (p sn.1).2)

/-- One `Send` call in the instrumented state (writer state plus
producer-invocation counter). -/
def sendStep (p : Producer) : WriterState × Nat → WriterState × Nat :=
  fun sn => (sendG (countingWrite WriterState.write) (countingProducer p) sn).1

/-- A `Send` call invokes the installed producer exactly once: the
invocation counter rises by exactly one, whatever the producer and the
writer do. -/
theorem sendG_counting {σ : Type} (wr : σ → Chunk → σ × Option Nat)
    (p : σ → σ × (Chunk × Option Err)) (s : σ) (n : Nat) :
    ((sendG (countingWrite wr) (countingProducer p) (s, n)).1).2 = n + 1 := by
  rcases hp : p s with ⟨s1, b, e⟩
  cases e with
  | some e => simp [sendG, countingWrite, countingProducer, hp]
  | none =>
    rcases hw : wr s1 b with ⟨s2, t⟩
    cases t <;> simp [sendG, countingWrite, countingProducer, hp, hw]

/-- The counter statement of `sendG_counting`, for any instrumented
state. -/
theorem sendStep_count (p : Producer) (sn : WriterState × Nat) :
    (sendStep p sn).2 = sn.2 + 1 :=
  sendG_counting WriterState.write p sn.1 sn.2

/-- A request: per-connection identity (`id`, modelling the uuid),
session name, and opaque handles for the inbound http request, the
response writer, and the cancellation context. -/
structure Request where
  id : Nat
  sessionName : String
  httpRequest : Nat
  writer : Nat
  ctx : Nat
deriving DecidableEq, Repr

/-- The default session name constant `SessionName`. -/
def SessionName : String := "http-session"

/-- `NewRequest`: fresh id, default session name, the given context,
request and writer handles. -/
def NewRequest (freshId ctx httpRequest writer : Nat) : Request :=
  { id := freshId, sessionName := SessionName, ctx := ctx,
    httpRequest := httpRequest, writer := writer }

/-- `Request.ID` (pointer receiver): returns the id and leaves the
request unchanged. -/
def Request.ID (r : Request) : Nat × Request := (r.id, r)

/-- `Request.Context` (pointer receiver): returns the context handle and
leaves the request unchanged. -/
def Request.Context (r : Request) : Nat × Request := (r.ctx, r)

/-- `Request.HTTPRequest` (pointer receiver): returns the http request
handle and leaves the request unchanged. -/
def Request.HTTPRequest (r : Request) : Nat × Request := (r.httpRequest, r)

/-- `Request.SessionName` (pointer receiver): returns the session name
and leaves the request unchanged. -/
def Request.SessionName (r : Request) : String × Request := (r.sessionName, r)

/-- `Request.Writer` (pointer receiver): returns the writer handle and
leaves the request unchanged. -/
def Request.Writer (r : Request) : Nat × Request := (r.writer, r)

/-- `Request.WithSessionName`: overrides the session name in place and
returns the request. -/
def Request.WithSessionName (r : Request) (name : String) : Request :=
  { r with sessionName := name }

/-- The response builder: the owning request (by reference) and the
currently installed body producer.  `bodyFunc` is `none` when no
producer has ever been installed (the Go field is a nil function). -/
structure Builder where
  request : Request
  bodyFunc : Option Producer

/-- `Request.ResponseBuilder`: a fresh builder over this request with no
body producer installed. -/
def Request.ResponseBuilder (r : Request) : Builder :=
  { request := r, bodyFunc := none }

/-- `responseBuilder.WithBody`: installs a `BinaryData` producer over
the given bytes. -/
def Builder.WithBody (b : Builder) (body : Chunk) : Builder :=
  { b with bodyFunc := some (BinaryData body) }

/-- `responseBuilder.WithBodyFunc`: installs the given producer. -/
def Builder.WithBodyFunc (b : Builder) (f : Producer) : Builder :=
  { b with bodyFunc := some f }

/-- `Response.Send` seen from the builder: invoking a nil `bodyFunc` is
undefined behaviour (a Go nil-function call panics), modelled as `none`;
with an installed producer the call is `Send` of that producer. -/
def SendResponse (b : Builder) (w : WriterState) : Option (WriterState × Option Err) :=
  match b.bodyFunc with
  | none => none
  | some p => some (Send p w)

/-- A producer that fails with tag 7 and leaves the writer unchanged. -/
def failingProducer : Producer := fun w => (w, ([], some (Err.producerFailed 7)))

/-- C1: for the producer returned by `BinaryStreamData`, if the context
is cancelled before or during iteration (the cancellation event is
reached after the chunks `pre`, all of which the transport accepts), the
producer writes exactly `pre` — no chunk received after the cancellation
is written — and returns success with an empty payload, not the
cancellation error. -/
theorem c1_cancellation_suppressed (pre : List Chunk) (post : List Event) (w : WriterState)
    (h : ∀ c ∈ pre, w.writeErr c = none) :
    BinaryStreamData (pre.map Event.chunk ++ Event.cancel :: post) w
      = ({ w with written := w.written ++ pre }, ([], none)) := by
  have hs := streamEach_ok_chunks pre (Event.cancel :: post) w h
  simp only [BinaryStreamData, hs]
  simp [streamEach]

theorem c1_cancellation_suppressed_witness :
    BinaryStreamData [Event.chunk [1], Event.cancel, Event.chunk [2]] okWriter
      = ({ okWriter with written := okWriter.written ++ [[1]] }, ([], none)) :=
  c1_cancellation_suppressed [[1]] [Event.chunk [2]] okWriter (fun _ _ => rfl)

/-- C2: evaluation of the code's resource handling.  The
`defer func(){ s.Close() }()` in `BinaryStreamData` is attached to the
constructor, not to the returned closure, so the wrapped stream's
`Close` fires once at constructor return — before the producer is ever
invoked — and an invocation of the producer (here on two chunks against
an accepting writer) performs only `Write` calls, no `Close`, on its
exit path.  This contradicts the claim that the iterator resource is
released on every exit path of a producer invocation. -/
theorem c2_close_runs_at_constructor_return :
    binaryStreamDataReturnActions = [SAct.closeCall]
    ∧ binaryStreamDataEachActions [Event.chunk [1], Event.chunk [2]] okWriter
        = [SAct.writeCall [1], SAct.writeCall [2]] :=
  ⟨rfl, rfl⟩

/-- C4: if the transport accepts the chunks `pre` but rejects the chunk
`c` with tag `t`, the producer returned by `BinaryStreamData` stops at
`c`: it writes exactly `pre`, writes nothing after the failing chunk,
and returns exactly the write error. -/
theorem c4_write_failure_aborts (pre : List Chunk) (c : Chunk) (t : Nat) (post : List Event)
    (w : WriterState) (h : ∀ x ∈ pre, w.writeErr x = none) (hc : w.writeErr c = some t) :
    BinaryStreamData (pre.map Event.chunk ++ Event.chunk c :: post) w
      = ({ w with written := w.written ++ pre }, ([], some (Err.writeFailed t))) := by
  have hs := streamEach_ok_chunks pre (Event.chunk c :: post) w h
  simp only [BinaryStreamData, hs]
  simp [streamEach, WriterState.write, hc]

theorem c4_write_failure_aborts_witness :
    BinaryStreamData [Event.chunk [1], Event.chunk [2], Event.chunk [3]] failOn2Writer
      = ({ failOn2Writer with written := failOn2Writer.written ++ [[1]] },
         ([], some (Err.writeFailed 5))) :=
  c4_write_failure_aborts [[1]] [2] 5 [Event.chunk [3]] failOn2Writer (by decide) (by decide)

/-- C5: for a channel fed exactly the chunks `chunks` in order and then
closed normally (no cancellation, every chunk accepted by the
transport), the producer returned by `BinaryStreamData` writes exactly
those chunks, each once, in that order, and returns no error. -/
theorem c5_streams_in_order (chunks : List Chunk) (w : WriterState)
    (h : ∀ c ∈ chunks, w.writeErr c = none) :
    BinaryStreamData (chunks.map Event.chunk) w
      = ({ w with written := w.written ++ chunks }, ([], none)) := by
  have hs := streamEach_ok_chunks chunks [] w h
  rw [List.append_nil] at hs
  simp only [BinaryStreamData, hs]
  simp [streamEach]

theorem c5_streams_in_order_witness :
    BinaryStreamData [Event.chunk [1], Event.chunk [2], Event.chunk [3]] okWriter
      = ({ okWriter with written := okWriter.written ++ [[1], [2], [3]] }, ([], none)) :=
  c5_streams_in_order [[1], [2], [3]] okWriter (fun _ _ => rfl)

/-- C6: on every run (normal closure, cancellation, or write failure)
the byte slice returned by the `BinaryStreamData` producer is the empty
payload; the streamed chunks reach the writer only as a side effect. -/
theorem c6_returned_bytes_always_empty (events : List Event) (w : WriterState) :
    (BinaryStreamData events w).2.1 = ([] : Chunk) := by
  simp only [BinaryStreamData]
  split <;> rfl

/-- C3: `Send` invokes the installed producer exactly once per call (the
instrumented invocation counter rises by exactly one); if the producer
fails, `Send` returns that error and performs no write — the writer
state is exactly the producer's post-state; if the producer succeeds and
the transport accepts the body, `Send` appends exactly the returned body
(possibly empty) to the writer; if the transport rejects the body,
`Send` propagates the write error. -/
theorem c3_send_invokes_once_and_propagates (p : Producer) (w : WriterState) (n : Nat) :
    ((sendG (countingWrite WriterState.write) (countingProducer p) (w, n)).1).2 = n + 1
    ∧ (∀ w1 b e, p w = (w1, (b, some e)) → Send p w = (w1, some e))
    ∧ (∀ w1 b, p w = (w1, (b, none)) → w1.writeErr b = none →
        Send p w = ({ w1 with written := w1.written ++ [b] }, none))
    ∧ (∀ w1 b t, p w = (w1, (b, none)) → w1.writeErr b = some t →
        Send p w = (w1, some (Err.writeFailed t))) := by
  refine ⟨sendG_counting WriterState.write p w n, ?_, ?_, ?_⟩
  · intro w1 b e hp
    simp [Send, sendG, hp]
  · intro w1 b hp hw
    simp [Send, sendG, hp, WriterState.write, hw]
  · intro w1 b t hp hw
    simp [Send, sendG, hp, WriterState.write, hw]

theorem c3_send_invokes_once_and_propagates_witness :
    ((sendG (countingWrite WriterState.write) (countingProducer failingProducer)
        (okWriter, 0)).1).2 = 0 + 1
    ∧ Send failingProducer okWriter = (okWriter, some (Err.producerFailed 7))
    ∧ Send (BinaryData [3]) okWriter
        = ({ okWriter with written := okWriter.written ++ [[3]] }, none)
    ∧ Send (BinaryData [3]) badWriter = (badWriter, some (Err.writeFailed 9)) :=
  ⟨(c3_send_invokes_once_and_propagates failingProducer okWriter 0).1,
   (c3_send_invokes_once_and_propagates failingProducer okWriter 0).2.1
     okWriter [] (Err.producerFailed 7) rfl,
   (c3_send_invokes_once_and_propagates (BinaryData [3]) okWriter 0).2.2.1
     okWriter [3] rfl rfl,
   (c3_send_invokes_once_and_propagates (BinaryData [3]) badWriter 0).2.2.2
     badWriter [3] 9 rfl rfl⟩

/-- C7: each `Send` call re-invokes the currently installed producer:
after `k` `Send` calls on the same builder state the instrumented
producer-invocation counter has risen by exactly `k` — the number of
invocations equals the number of `Send` calls, so no `Send` silently
resends a previously produced body without invoking the producer. -/
theorem c7_each_send_reinvokes (p : Producer) (w : WriterState) (n k : Nat) :
    ((sendStep p)^[k] (w, n)).2 = n + k := by
  induction k with
  | zero => rfl
  | succ k ih =>
    rw [Function.iterate_succ_apply', sendStep_count, ih, Nat.add_assoc]

/-- C8: for every byte buffer `b`, `BinaryData b` returns `(b, none)` on
every invocation, never fails, and has no effect on the writer state
(pure, idempotent, callable repeatedly). -/
theorem c8_binary_data_pure (b : Chunk) (w : WriterState) :
    BinaryData b w = (w, (b, none)) := rfl

/-- C9: a request is immutable except for its session name:
`WithSessionName` sets `sessionName` and changes no other field, and
every other operation on a request (the accessors and
`ResponseBuilder`) leaves the request exactly unchanged. -/
theorem c9_request_immutable_except_session_name (r : Request) (name : String) :
    (r.WithSessionName name).sessionName = name
    ∧ (r.WithSessionName name).id = r.id
    ∧ (r.WithSessionName name).httpRequest = r.httpRequest
    ∧ (r.WithSessionName name).writer = r.writer
    ∧ (r.WithSessionName name).ctx = r.ctx
    ∧ (Request.ID r).2 = r
    ∧ (Request.Context r).2 = r
    ∧ (Request.HTTPRequest r).2 = r
    ∧ (Request.SessionName r).2 = r
    ∧ (Request.Writer r).2 = r
    ∧ (Request.ResponseBuilder r).request = r :=
  ⟨rfl, rfl, rfl, rfl, rfl, rfl, rfl, rfl, rfl, rfl, rfl⟩

/-- C10: a builder fresh from `ResponseBuilder` has no producer
installed (`bodyFunc` is the nil function, modelled `none`), and `Send`
over such a builder invokes a nil function — undefined behaviour
(panic), modelled `none`: no error value is returned.  Installing a body
via `WithBody` or `WithBodyFunc` is what makes `bodyFunc` non-nil. -/
theorem c10_send_without_producer_panics (r : Request) (w : WriterState) :
    (Request.ResponseBuilder r).bodyFunc = none
    ∧ SendResponse (Request.ResponseBuilder r) w = none
    ∧ (∀ body, (Builder.WithBody (Request.ResponseBuilder r) body).bodyFunc
        = some (BinaryData body))
    ∧ (∀ f, (Builder.WithBodyFunc (Request.ResponseBuilder r) f).bodyFunc = some f) :=
  ⟨rfl, rfl, fun _ => rfl, fun _ => rfl⟩

end HttpSimple
